import Mathlib

/-!
Verification of the Session Event Correlation & Snapshot Assembly Engine of
the vscode-copilot-debugger repository.

The development shallowly embeds three source functions:
* `waitForBreakpointHit` (src/evaluateExpressionTool.ts) as a state machine
  over traces of stop events, termination events and the timer firing;
* `getStackFrameVariables` (src/inspection.ts) as a pure function over a
  backend description (scopes response and per-reference variables responses);
* `resumeDebugSession` (src/session.ts) as a function that also records the
  ordered trace of the actions it performs.

JavaScript string primitives used by the source (`startsWith`, `includes`,
`RegExp` with the `i` flag) are modelled over character lists so that every
definition is kernel-executable.
-/

/-- Model of JavaScript `s.startsWith(pre)`: `pre` is a prefix of `s`. -/
def strStartsWith (s pre : String) : Bool :=
  pre.toList.isPrefixOf s.toList

/-- `needle` occurs as a contiguous run inside `hay`. -/
def listIsInfixOf (needle hay : List Char) : Bool :=
  match hay with
  | [] => needle.isEmpty
  | _ :: t => needle.isPrefixOf hay || listIsInfixOf needle t

/-- Model of JavaScript `s.includes(needle)`: substring containment. -/
def strContains (s needle : String) : Bool :=
  listIsInfixOf needle.toList s.toList

/-- ASCII lower-casing of one character, modelling the case folding performed
by a JavaScript regular expression compiled with the `i` flag. -/
def lowerChar (c : Char) : Char :=
  if 65 ≤ c.toNat ∧ c.toNat ≤ 90 then Char.ofNat (c.toNat + 32) else c

/-- Split a character list at every `|`, yielding the alternation fragments of
a regular-expression pattern built from literal fragments. -/
def splitFrags (l : List Char) : List (List Char) :=
  match l with
  | [] => [[]]
  | c :: t =>
    let r := splitFrags t
    if c = '|' then [] :: r
    else
      match r with
      | [] => [[c]]
      | f :: fs => (c :: f) :: fs

/-- Model of `new RegExp(pattern, "i").test(name)` for patterns that are
alternations of literal fragments (the shape the repository feeds it, e.g.
`alpha|gamma`): some fragment occurs in `name`, compared case-insensitively.
`test` searches anywhere in the string, so containment, not equality. -/
def regexTestCI (pattern name : String) : Bool :=
  (splitFrags pattern.toList).any fun frag =>
    listIsInfixOf (frag.map lowerChar) (name.toList.map lowerChar)

/-- ASCII-lower-case an entire string. -/
def strLower (s : String) : String :=
  String.mk (s.toList.map lowerChar)

/-! ## Data model of the snapshot assembler (src/inspection.ts) -/

/-- A DAP variable as surfaced by a `variables` response. -/
structure DapVariable where
  name : String
  value : String
  varType : Option String := none
  evaluateName : Option String := none
  variablesReference : Nat := 0
  deriving Repr, DecidableEq

/-- A scope as surfaced by a `scopes` response. -/
structure DapScope where
  name : String
  variablesReference : Nat
  deriving Repr, DecidableEq

/-- Outcome of one `variables` request against the backend: a well-formed
list, a structurally invalid response (missing or non-array `variables`
field), or a thrown error carrying a message. -/
inductive VarsResponse where
  | ok (vars : List DapVariable)
  | invalid
  | threw (msg : String)
  deriving Repr, DecidableEq

/-- Outcome of the `scopes` request against the backend. -/
inductive ScopesResponse where
  | ok (scopes : List DapScope)
  | invalid
  | threw (msg : String)
  deriving Repr, DecidableEq

/-- One debug session as the assembler sees it: identifiers plus the
backend's (deterministic) answers to `scopes` and `variables` requests. -/
structure SessionBackend where
  id : String
  name : String
  debugType : String
  scopesFor : Nat → ScopesResponse
  variablesFor : Nat → VarsResponse

/-- One scope's slice of the assembled snapshot (`ScopeVariables` in the
source): name, surviving variables, optional per-scope error string. -/
structure ScopeVariables where
  scopeName : String
  vars : List DapVariable
  error : Option String := none
  deriving Repr, DecidableEq

/-- The JSON payload of a successful assembly
(`StackFrameVariablesResult` in the source). -/
structure StackFrameVariablesResult where
  sessionId : String
  frameId : Nat
  threadId : Nat
  variablesByScope : List ScopeVariables
  filter : Option String
  debuggerType : String
  deriving Repr, DecidableEq

/-- Result of `getStackFrameVariables`: a JSON snapshot (`isError: false`) or
an error text (`isError: true`). -/
inductive AssembleResult where
  | json (r : StackFrameVariablesResult)
  | errorText (msg : String)
  deriving Repr, DecidableEq

/-- `isError` of the returned tool result. -/
def AssembleResult.isError : AssembleResult → Bool
  | .json _ => false
  | .errorText _ => true

/-- JavaScript truthiness of the optional `filter` string: `undefined` and
the empty string are falsy. -/
def truthy : Option String → Bool
  | none => false
  | some s => !(s == "")

/-- Parameters of `getStackFrameVariables`. -/
structure InspectParams where
  sessionId : String
  frameId : Nat
  threadId : Nat
  filter : Option String := none
  retryIfEmpty : Bool := false
  deriving Repr, DecidableEq

/-- Per-scope processing of `getStackFrameVariables` (the mapper passed to
`Promise.all` in src/inspection.ts): reference `0` yields no variables and no
query; otherwise the `variables` request is issued, a thrown error or an
invalid response is absorbed into an empty list plus an error string, and a
truthy filter is compiled (`compile` models `new RegExp(filter, "i")`, whose
failure is caught by the same per-scope catch) and applied to the names. -/
def processScope (compile : String → Except String (String → Bool))
    (sess : SessionBackend) (filter : Option String) (scope : DapScope) :
    ScopeVariables :=
  if scope.variablesReference == 0 then
    { scopeName := scope.name, vars := [] }
  else
    match sess.variablesFor scope.variablesReference with
    | .threw msg =>
      { scopeName := scope.name, vars := []
        error := some ("Error getting variables: " ++ msg) }
    | .invalid =>
      { scopeName := scope.name, vars := []
        error := some ("Invalid variables response from debug adapter for scope "
          ++ scope.name) }
    | .ok vars =>
      match filter with
      | some f =>
        if f == "" then { scopeName := scope.name, vars := vars }
        else
          match compile f with
          | .error msg =>
            { scopeName := scope.name, vars := []
              error := some ("Error getting variables: " ++ msg) }
          | .ok tst =>
            { scopeName := scope.name
              vars := vars.filter fun v => tst v.name }
      | none => { scopeName := scope.name, vars := vars }

/-- Total variable count across all scopes, the `reduce` of
src/inspection.ts. -/
def totalVarCount (l : List ScopeVariables) : Nat :=
  l.foldl (fun sum s => sum + s.vars.length) 0

/-- Shallow embedding of `getStackFrameVariables` (src/inspection.ts).
The session is located by exact id; the `scopes` request may throw or be
structurally invalid, both of which fail the whole assembly; otherwise each
scope is processed independently by `processScope`, and if the total
surviving count is zero while `retryIfEmpty` and a truthy filter are set, the
assembly re-runs itself once with the filter removed and the retry flag
cleared. -/
def getStackFrameVariables (compile : String → Except String (String → Bool))
    (sessions : List SessionBackend) (p : InspectParams) : AssembleResult :=
  match sessions.find? (fun s => s.id == p.sessionId) with
  | none =>
    .errorText ("No debug session found with ID " ++ p.sessionId ++ ".")
  | some session =>
    match session.scopesFor p.frameId with
    | .threw msg =>
      .errorText ("Error getting variables: " ++ msg
        ++ ". This may be a limitation of the " ++ session.debugType
        ++ " debug adapter.")
    | .invalid =>
      .errorText ("Invalid scopes response from debug adapter. This may be a limitation of the "
        ++ session.debugType ++ " debug adapter.")
    | .ok scopes =>
      let variablesByScope := scopes.map (processScope compile session p.filter)
      let totalVars := totalVarCount variablesByScope
      if p.retryIfEmpty && truthy p.filter && totalVars == 0 then
        getStackFrameVariables compile sessions
          { sessionId := p.sessionId, frameId := p.frameId
            threadId := p.threadId, filter := none, retryIfEmpty := false }
      else
        .json
          { sessionId := p.sessionId, frameId := p.frameId
            threadId := p.threadId, variablesByScope := variablesByScope
            filter := if truthy p.filter then p.filter else none
            debuggerType := session.debugType }
termination_by (if p.retryIfEmpty then 1 else 0)
decreasing_by
  simp_all

/-- Number of assembly passes `getStackFrameVariables` performs (1 plus the
retry, when the retry guard fires). Mirrors the recursion structure of the
source exactly. -/
def assemblyPasses (compile : String → Except String (String → Bool))
    (sessions : List SessionBackend) (p : InspectParams) : Nat :=
  match sessions.find? (fun s => s.id == p.sessionId) with
  | none => 1
  | some session =>
    match session.scopesFor p.frameId with
    | .threw _ => 1
    | .invalid => 1
    | .ok scopes =>
      let variablesByScope := scopes.map (processScope compile session p.filter)
      let totalVars := totalVarCount variablesByScope
      if p.retryIfEmpty && truthy p.filter && totalVars == 0 then
        1 + assemblyPasses compile sessions
          { sessionId := p.sessionId, frameId := p.frameId
            threadId := p.threadId, filter := none, retryIfEmpty := false }
      else 1
termination_by (if p.retryIfEmpty then 1 else 0)
decreasing_by
  simp_all

/-! ## Data model of the stop-wait coordinator (src/evaluateExpressionTool.ts) -/

/-- A live debug session handle as the wait sees it: the VS Code id, the
display name, and the optional `sessionId` embedded in the launch
configuration (`(s.configuration as DebugConfiguration).sessionId`). -/
structure DebugSession where
  id : String
  name : String
  configSessionId : Option String := none
  deriving Repr, DecidableEq

/-- The payload fired on `breakpointEventEmitter` (`BreakpointHitInfo`). -/
structure BreakpointHitInfo where
  sessionId : String
  sessionName : String
  threadId : Nat
  reason : String
  frameId : Option Nat := none
  deriving Repr, DecidableEq

/-- The payload fired on `onSessionTerminate`. -/
structure TerminatedEvent where
  sessionId : String
  sessionName : String
  deriving Repr, DecidableEq

/-- Parameters of `waitForBreakpointHit` with defaults already applied
(`timeout = 30000`, `includeTermination = true`). -/
structure WaitParams where
  sessionId : Option String := none
  sessionName : Option String := none
  timeout : Nat := 30000
  includeTermination : Bool := true
  deriving Repr, DecidableEq

/-- Selector resolution performed inside the `onBreakpointHit` handler of
`waitForBreakpointHit`: an id selector matches a session's id or its
configuration-embedded session id; a name selector matches exact name or a
session name extending the candidate (`s.name.startsWith(sessionName)`);
with no selector the first registered session is taken. -/
def resolveTargetSession (sessions : List DebugSession)
    (sessionId sessionName : Option String) : Option DebugSession :=
  match sessionId with
  | some i =>
    sessions.find? fun s => s.id == i || s.configSessionId == some i
  | none =>
    match sessionName with
    | some n =>
      sessions.find? fun s => s.name == n || strStartsWith s.name n
    | none => sessions.head?

/-- The stop-event match of `waitForBreakpointHit`: the event's session
matches the resolved target by id, by exact name, or by name prefix in
either direction. -/
def eventMatchesTarget (target : DebugSession) (e : BreakpointHitInfo) : Bool :=
  e.sessionId == target.id || e.sessionName == target.name ||
    strStartsWith e.sessionName target.name ||
    strStartsWith target.name e.sessionName

/-- The termination match of `waitForBreakpointHit`: an id selector requires
the event's session id to equal the selector exactly; a name selector
requires exact name or the event name extending the candidate; with no
selector every termination matches. -/
def terminationMatches (sessionId sessionName : Option String)
    (e : TerminatedEvent) : Bool :=
  match sessionId with
  | some i => e.sessionId == i
  | none =>
    match sessionName with
    | some n => e.sessionName == n || strStartsWith e.sessionName n
    | none => true

/-- The `BreakpointHitInfo` synthesized when a termination resolves the wait:
the terminated session's identifiers, thread id `0`, reason `terminated`. -/
def terminationHitInfo (e : TerminatedEvent) : BreakpointHitInfo :=
  { sessionId := e.sessionId, sessionName := e.sessionName
    threadId := 0, reason := "terminated" }

/-- Terminal outcome of one wait: resolution by a stop event, resolution by a
termination event (carrying the synthesized info), or the timeout rejection. -/
inductive WaitOutcome where
  | stopResolved (e : BreakpointHitInfo)
  | termResolved (e : BreakpointHitInfo)
  | timedOut
  deriving Repr, DecidableEq

/-- The observable state of one in-flight `waitForBreakpointHit` promise:
whether each event subscription is still registered, whether the `setTimeout`
timer is still armed, and the settled value of the promise, if any. -/
structure WaitState where
  listenerActive : Bool
  terminateListenerActive : Bool
  timerArmed : Bool
  result : Option WaitOutcome
  deriving Repr, DecidableEq

/-- State of the wait right after `waitForBreakpointHit` sets up its promise:
the stop listener is registered, the termination listener is registered
exactly when `includeTermination` is set, the timer is armed, nothing is
resolved. -/
def waitInit (p : WaitParams) : WaitState :=
  { listenerActive := true
    terminateListenerActive := p.includeTermination
    timerArmed := true
    result := none }

/-- Settling a promise: the first resolution wins, later ones are no-ops. -/
def settle (r : Option WaitOutcome) (v : WaitOutcome) : Option WaitOutcome :=
  match r with
  | none => some v
  | some w => some w

/-- Inputs a wait can observe: a stop event (together with the contents of
`activeSessions` at delivery time, which the handler re-reads), a
termination event, and the deadline timer firing. -/
inductive WaitInput where
  | stopEvt (sessions : List DebugSession) (e : BreakpointHitInfo)
  | termEvt (e : TerminatedEvent)
  | timerFire
  deriving Repr, DecidableEq

/-- One step of the wait, translated from the three callbacks of
`waitForBreakpointHit`:
* the stop handler runs only while its subscription is live; it resolves the
  target from the current session list and, on a match, disposes both
  listeners and resolves the promise with the event (the timer is left
  untouched — the source never calls `clearTimeout`);
* the termination handler runs only while its subscription is live and, on a
  selector match, disposes both listeners and resolves with the synthesized
  terminated info;
* the timer callback always runs when the deadline elapses, disposes both
  listeners and rejects — a no-op on an already settled promise. -/
def waitStep (p : WaitParams) (st : WaitState) (i : WaitInput) : WaitState :=
  match i with
  | .stopEvt sessions e =>
    if st.listenerActive then
      match resolveTargetSession sessions p.sessionId p.sessionName with
      | some target =>
        if eventMatchesTarget target e then
          { st with listenerActive := false
                    terminateListenerActive := false
                    result := settle st.result (.stopResolved e) }
        else st
      | none => st
    else st
  | .termEvt e =>
    if st.terminateListenerActive then
      if terminationMatches p.sessionId p.sessionName e then
        { st with listenerActive := false
                  terminateListenerActive := false
                  result := settle st.result (.termResolved (terminationHitInfo e)) }
      else st
    else st
  | .timerFire =>
    { st with listenerActive := false
              terminateListenerActive := false
              timerArmed := false
              result := settle st.result .timedOut }

/-- Run one wait over a trace of observed inputs. -/
def runWait (p : WaitParams) (tr : List WaitInput) : WaitState :=
  tr.foldl (waitStep p) (waitInit p)

/-! ## Data model of the resume orchestrator (src/session.ts) -/

/-- The externally visible actions `resumeDebugSession` performs, in order:
arming a `waitForBreakpointHit` wait with the given parameters, issuing the
`continue` request, and awaiting the armed wait's outcome. -/
inductive ResumeAction where
  | armWait (p : WaitParams)
  | continueReq
  | awaitOutcome
  deriving Repr, DecidableEq

/-- Result of `resumeDebugSession`, kept at the granularity the wait-ordering
claims need. -/
inductive ResumeResult where
  | noSession
  | configError
  | continueError
  | resumedImmediate (name : String)
  | afterStop (outcome : WaitOutcome) (name : String)
  deriving Repr, DecidableEq

/-- Environment `resumeDebugSession` runs against: the registered sessions,
whether breakpoint-configuration processing succeeds, whether the `continue`
request is acknowledged, and the outcome the armed wait eventually yields. -/
structure ResumeEnv where
  sessions : List DebugSession
  configOk : Bool := true
  continueOk : Bool := true
  waitOutcome : WaitOutcome := .timedOut

/-- Parameters of `resumeDebugSession`. -/
structure ResumeParams where
  sessionId : String
  waitForStop : Bool := false
  hasBreakpointConfig : Bool := false

/-- Shallow embedding of `resumeDebugSession` (src/session.ts), returning the
ordered action trace next to the result. The session is found by exact id,
falling back to a name containing the id; breakpoint configuration is
processed first; then the wait is armed (`waitForBreakpointHit` with the raw
`sessionId` parameter and `includeTermination: true`, so both subscriptions
exist before the call returns), then `continue` is issued for all threads,
and only a true `waitForStop` awaits the armed outcome. -/
def resumeDebugSession (env : ResumeEnv) (p : ResumeParams) :
    List ResumeAction × ResumeResult :=
  let found :=
    match env.sessions.find? (fun s => s.id == p.sessionId) with
    | some s => some s
    | none => env.sessions.find? fun s => strContains s.name p.sessionId
  match found with
  | none => ([], .noSession)
  | some sess =>
    if p.hasBreakpointConfig && !env.configOk then ([], .configError)
    else
      let wp : WaitParams :=
        { sessionId := some p.sessionId, sessionName := none
          timeout := 30000, includeTermination := true }
      if !env.continueOk then
        ([.armWait wp, .continueReq], .continueError)
      else if p.waitForStop then
        ([.armWait wp, .continueReq, .awaitOutcome],
          .afterStop env.waitOutcome sess.name)
      else
        ([.armWait wp, .continueReq], .resumedImmediate sess.name)

/-- Total variable count of a result: the snapshot's count, zero for an
error result. -/
def resultTotalVars : AssembleResult → Nat
  | .json r => totalVarCount r.variablesByScope
  | .errorText _ => 0

/-- A regex engine that accepts every pattern, interpreting it as an
alternation of literal fragments (sufficient for concrete instances). -/
def mockCompile : String → Except String (String → Bool) :=
  fun pat => .ok (regexTestCI pat)

/-- A regex engine that rejects every pattern, modelling `new RegExp`
throwing on an invalid pattern. -/
def badCompile : String → Except String (String → Bool) :=
  fun _ => .error "Invalid regular expression"

/-- The mock session of the repository's variable-filter test: scopes
`Local` (reference 1, variables alpha/beta/gamma) and `Empty` (reference 0). -/
def mockSession : SessionBackend :=
  { id := "mock-session", name := "mock", debugType := "mockType"
    scopesFor := fun _ => .ok [{ name := "Local", variablesReference := 1 },
                               { name := "Empty", variablesReference := 0 }]
    variablesFor := fun r =>
      if r == 1 then
        .ok [{ name := "alpha", value := "1" },
             { name := "beta", value := "2" },
             { name := "gamma", value := "3" }]
      else .ok [] }

/-- A backend with one healthy scope, one scope whose variables query
throws, one whose response is invalid, and one with reference 0. -/
def mockFailSession : SessionBackend :=
  { id := "fail-session", name := "fail", debugType := "mockType"
    scopesFor := fun _ => .ok [{ name := "Local", variablesReference := 1 },
                               { name := "Broken", variablesReference := 2 },
                               { name := "Bad", variablesReference := 3 },
                               { name := "Empty", variablesReference := 0 }]
    variablesFor := fun r =>
      if r == 1 then .ok [{ name := "alpha", value := "1" }]
      else if r == 2 then .threw "boom"
      else .invalid }

/-! ## Specification-side definitions, for comparison with the code -/

/-- The three-strategy name lookup the specification prescribes: exact name
equality first, then the candidate being a prefix of a registered name, then
a registered name being a prefix of the candidate, each strategy a full pass,
first match winning. Stated from the spec for comparison with
`resolveTargetSession`. -/
def specNameLookup (sessions : List DebugSession) (candidate : String) :
    Option DebugSession :=
  match sessions.find? (fun s => s.name == candidate) with
  | some s => some s
  | none =>
    match sessions.find? (fun s => strStartsWith s.name candidate) with
    | some s => some s
    | none => sessions.find? fun s => strStartsWith candidate s.name

/-- The termination-match rule the specification prescribes: the same rule as
for a stop event, applied against the resolved target session (id or name or
mutual name-prefix). Stated from the spec for comparison with
`terminationMatches`. -/
def specTermMatches (target : DebugSession) (e : TerminatedEvent) : Bool :=
  e.sessionId == target.id || e.sessionName == target.name ||
    strStartsWith e.sessionName target.name ||
    strStartsWith target.name e.sessionName

/-! ## Helper lemmas about the wait state machine -/

theorem listPrefix_refl (l : List Char) : l.isPrefixOf l = true := by
  induction l with
  | nil => rfl
  | cons a t ih => simp [List.isPrefixOf, ih]

theorem strStartsWith_refl (s : String) : strStartsWith s s = true :=
  listPrefix_refl s.toList

/-- The exact-equality disjunct of the code's name predicate is redundant:
equality implies the prefix test. -/
theorem find?_name_or_starts (sessions : List DebugSession) (n : String) :
    (sessions.find? fun s => s.name == n || strStartsWith s.name n) =
      sessions.find? fun s => strStartsWith s.name n := by
  induction sessions with
  | nil => rfl
  | cons s t ih =>
    by_cases h : (s.name == n) = true
    · have heq : s.name = n := eq_of_beq h
      have hsw : strStartsWith s.name n = true := heq ▸ strStartsWith_refl n
      simp [List.find?, h, hsw]
    · simp only [List.find?, h, Bool.false_or]
      cases hsw : strStartsWith s.name n
      · exact ih
      · rfl

/-- First-match characterization of a single `find?` pass: it returns `a`
exactly when `a` is the first element of the list satisfying the predicate. -/
theorem find?_eq_some_first {α : Type} (p : α → Bool) (l : List α) (a : α) :
    l.find? p = some a ↔
      ∃ l1 l2, l = l1 ++ a :: l2 ∧ p a = true ∧ ∀ x ∈ l1, p x = false := by
  induction l with
  | nil =>
    constructor
    · intro h
      simp at h
    · rintro ⟨l1, l2, hl, -, -⟩
      cases l1 <;> simp_all
  | cons b t ih =>
    cases hb : p b with
    | true =>
      rw [List.find?_cons_of_pos _ hb]
      constructor
      · intro h
        injection h with h
        subst h
        exact ⟨[], t, rfl, hb, by simp⟩
      · rintro ⟨l1, l2, hl, hpa, hpre⟩
        cases l1 with
        | nil =>
          rw [List.nil_append] at hl
          injection hl with h1 _
          rw [h1]
        | cons x l1 =>
          rw [List.cons_append] at hl
          injection hl with h1 _
          have hx : p x = false := hpre x (List.mem_cons_self x l1)
          rw [← h1, hb] at hx
          cases hx
    | false =>
      have hb' : ¬p b = true := by rw [hb]; simp
      rw [List.find?_cons_of_neg _ hb', ih]
      constructor
      · rintro ⟨l1, l2, hl, hpa, hpre⟩
        refine ⟨b :: l1, l2, by rw [List.cons_append, hl], hpa, ?_⟩
        intro x hx
        rcases List.mem_cons.mp hx with rfl | hx
        · exact hb
        · exact hpre x hx
      · rintro ⟨l1, l2, hl, hpa, hpre⟩
        cases l1 with
        | nil =>
          rw [List.nil_append] at hl
          injection hl with h1 _
          rw [h1] at hb
          rw [hb] at hpa
          cases hpa
        | cons x l1 =>
          rw [List.cons_append] at hl
          injection hl with _ h2
          exact ⟨l1, l2, h2, hpa, fun y hy => hpre y (List.mem_cons_of_mem x hy)⟩

/-- A settled promise never changes its value: one step. -/
theorem waitStep_preserves_some (p : WaitParams) (st : WaitState)
    (i : WaitInput) (v : WaitOutcome) (h : st.result = some v) :
    (waitStep p st i).result = some v := by
  cases i <;> simp only [waitStep] <;>
    (repeat' split) <;> simp_all [settle]

/-- A settled promise never changes its value: any continuation trace. -/
theorem foldl_preserves_some (p : WaitParams) (tr : List WaitInput)
    (st : WaitState) (v : WaitOutcome) (h : st.result = some v) :
    (tr.foldl (waitStep p) st).result = some v := by
  induction tr generalizing st with
  | nil => exact h
  | cons i t ih => exact ih _ (waitStep_preserves_some p st i v h)

/-- One step preserves the cleanup invariant: a settled wait holds no live
event subscription. -/
theorem waitStep_cleanup (p : WaitParams) (st : WaitState) (i : WaitInput)
    (h : st.result.isSome →
      st.listenerActive = false ∧ st.terminateListenerActive = false) :
    (waitStep p st i).result.isSome →
      (waitStep p st i).listenerActive = false ∧
        (waitStep p st i).terminateListenerActive = false := by
  cases i <;> simp only [waitStep] <;>
    (repeat' split) <;> simp_all [settle]

/-- Every reachable state of a wait satisfies the cleanup invariant. -/
theorem foldl_cleanup (p : WaitParams) (tr : List WaitInput) (st : WaitState)
    (h : st.result.isSome →
      st.listenerActive = false ∧ st.terminateListenerActive = false) :
    (tr.foldl (waitStep p) st).result.isSome →
      (tr.foldl (waitStep p) st).listenerActive = false ∧
        (tr.foldl (waitStep p) st).terminateListenerActive = false := by
  induction tr generalizing st with
  | nil => exact h
  | cons i t ih => exact ih _ (waitStep_cleanup p st i h)

theorem runWait_cleanup (p : WaitParams) (tr : List WaitInput) :
    (runWait p tr).result.isSome →
      (runWait p tr).listenerActive = false ∧
        (runWait p tr).terminateListenerActive = false :=
  foldl_cleanup p tr (waitInit p) (by simp [waitInit])

/-- The timer firing settles the promise if nothing else has. -/
theorem waitStep_timer_some (p : WaitParams) (st : WaitState) :
    ((waitStep p st .timerFire).result).isSome := by
  simp only [waitStep]
  cases h : st.result <;> simp [settle, h]

/-- `isSome` of the settled value is preserved by any further step. -/
theorem foldl_preserves_isSome (p : WaitParams) (tr : List WaitInput)
    (st : WaitState) (h : st.result.isSome) :
    ((tr.foldl (waitStep p) st).result).isSome := by
  cases hv : st.result with
  | none => rw [hv] at h; exact absurd h (by simp)
  | some v => simp [foldl_preserves_some p tr st v hv]

/-- A trace containing the timer firing leaves the wait settled. -/
theorem foldl_timer_settles (p : WaitParams) (tr : List WaitInput)
    (st : WaitState) (h : WaitInput.timerFire ∈ tr) :
    ((tr.foldl (waitStep p) st).result).isSome := by
  induction tr generalizing st with
  | nil => cases h
  | cons i t ih =>
    rcases List.mem_cons.mp h with h1 | h2
    · subst h1
      exact foldl_preserves_isSome p t _ (waitStep_timer_some p st)
    · exact ih _ h2

/-- Steps other than the timer firing leave the timer flag untouched. -/
theorem waitStep_timerArmed (p : WaitParams) (st : WaitState) (i : WaitInput)
    (h : i ≠ .timerFire) : (waitStep p st i).timerArmed = st.timerArmed := by
  cases i <;> simp only [waitStep] <;> (repeat' split) <;> simp_all

/-- Until the timer fires, the timer stays armed. -/
theorem foldl_timerArmed (p : WaitParams) (tr : List WaitInput)
    (st : WaitState) (h : WaitInput.timerFire ∉ tr) :
    (tr.foldl (waitStep p) st).timerArmed = st.timerArmed := by
  induction tr generalizing st with
  | nil => rfl
  | cons i t ih =>
    have hi : i ≠ .timerFire := fun he => h (he ▸ List.mem_cons_self i t)
    have ht : WaitInput.timerFire ∉ t := fun hm => h (List.mem_cons_of_mem i hm)
    rw [List.foldl_cons, ih _ ht, waitStep_timerArmed p st i hi]

/-- A stop event delivered to a wait whose stop subscription is disposed
changes nothing. -/
theorem waitStep_stop_noop (p : WaitParams) (st : WaitState)
    (sessions : List DebugSession) (e : BreakpointHitInfo)
    (hl : st.listenerActive = false) :
    waitStep p st (.stopEvt sessions e) = st := by
  simp [waitStep, hl]

/-! ## Claims C1-C4: the stop-wait coordinator -/

/-- C1: for every wait request, at most one terminal outcome is ever produced
(a settled result never changes along any continuation of the trace); at the
moment of resolution both event subscriptions are disposed; a trace in which
the deadline fires is settled, so exactly one of stop, termination, timeout
is produced per request; and a matching stop event published strictly after
resolution leaves the wait's entire state unchanged. -/
theorem c1_wait_exactly_one_outcome (p : WaitParams) :
    (∀ tr tr' v, (runWait p tr).result = some v →
      (runWait p (tr ++ tr')).result = some v)
    ∧ (∀ tr, ((runWait p tr).result).isSome →
      (runWait p tr).listenerActive = false ∧
        (runWait p tr).terminateListenerActive = false)
    ∧ (∀ tr, WaitInput.timerFire ∈ tr → ((runWait p tr).result).isSome)
    ∧ (∀ tr sessions e, ((runWait p tr).result).isSome →
      runWait p (tr ++ [WaitInput.stopEvt sessions e]) = runWait p tr) := by
  refine ⟨?_, runWait_cleanup p, ?_, ?_⟩
  · intro tr tr' v h
    rw [runWait, List.foldl_append]
    exact foldl_preserves_some p tr' _ v h
  · intro tr h
    exact foldl_timer_settles p tr (waitInit p) h
  · intro tr sessions e h
    have heq : runWait p (tr ++ [WaitInput.stopEvt sessions e]) =
        waitStep p (runWait p tr) (WaitInput.stopEvt sessions e) := by
      rw [runWait, List.foldl_append]; rfl
    rw [heq, waitStep_stop_noop p _ sessions e (runWait_cleanup p tr h).1]

/-- Witness for C1: a concrete wait resolved by a stop event keeps that very
outcome after a second stop event is published. -/
theorem c1_wait_exactly_one_outcome_witness :
    (runWait { sessionName := some "Run test.ps1" }
      ([WaitInput.stopEvt [{ id := "id1", name := "Run test.ps1 2" }]
          { sessionId := "id1", sessionName := "Run test.ps1 2"
            threadId := 1, reason := "breakpoint" }]
        ++ [WaitInput.stopEvt []
          { sessionId := "x", sessionName := "y"
            threadId := 2, reason := "step" }])).result
      = some (.stopResolved
          { sessionId := "id1", sessionName := "Run test.ps1 2"
            threadId := 1, reason := "breakpoint" }) :=
  (c1_wait_exactly_one_outcome { sessionName := some "Run test.ps1" }).1
    _ _ _ (by decide)

/-- Counterexample for C2 as stated, refuting both of its parts.
First, with one registered session named `Run` and candidate name
`Run test.ps1`, the specified third strategy (registered name is a prefix
of the candidate) would resolve the session, but the code's lookup resolves
nothing. Second, with sessions `Run test.ps1 2` then `Run test.ps1` and
candidate `Run test.ps1`, strategies tried in order with first match
winning would resolve the exact-name session, but the code's single pass
resolves the earlier prefix-matching session instead. -/
theorem c2_counterexample :
    resolveTargetSession [{ id := "id1", name := "Run" }] none
        (some "Run test.ps1") = none
    ∧ specNameLookup [{ id := "id1", name := "Run" }] "Run test.ps1" =
        some { id := "id1", name := "Run" }
    ∧ resolveTargetSession
        [{ id := "idX", name := "Run test.ps1 2" },
         { id := "idY", name := "Run test.ps1" }] none
        (some "Run test.ps1") = some { id := "idX", name := "Run test.ps1 2" }
    ∧ specNameLookup
        [{ id := "idX", name := "Run test.ps1 2" },
         { id := "idY", name := "Run test.ps1" }] "Run test.ps1" =
        some { id := "idY", name := "Run test.ps1" } := by
  decide

/-- C2 (amended): resolution by name is a single pass over the registered
sessions in registration order, accepting exact equality or the candidate
being a prefix of the registered name — equivalently it resolves the first
session whose name extends the candidate (so a later exact match never
beats an earlier prefix match), resolves nothing exactly when no name
extends the candidate, and the specified reverse-prefix strategy is not
applied. A stop event resolves a pending wait exactly when a target
resolves and the event matches it by id, by exact name, or by name-prefix
in either direction. -/
theorem c2_amended_session_matching (sessions : List DebugSession)
    (n : String) :
    resolveTargetSession sessions none (some n) =
      sessions.find? (fun s => strStartsWith s.name n)
    ∧ (∀ t, resolveTargetSession sessions none (some n) = some t ↔
        ∃ pre post, sessions = pre ++ t :: post ∧
          strStartsWith t.name n = true ∧
          ∀ s ∈ pre, strStartsWith s.name n = false)
    ∧ (resolveTargetSession sessions none (some n) = none ↔
        ∀ s ∈ sessions, strStartsWith s.name n = false)
    ∧ (∀ (p : WaitParams) (st : WaitState) (e : BreakpointHitInfo),
        p.sessionId = none → p.sessionName = some n →
        st.listenerActive = true → st.result = none →
        (((waitStep p st (.stopEvt sessions e)).result).isSome ↔
          ∃ t, resolveTargetSession sessions none (some n) = some t ∧
            (e.sessionId = t.id ∨ e.sessionName = t.name ∨
              strStartsWith e.sessionName t.name = true ∨
              strStartsWith t.name e.sessionName = true))) := by
  refine ⟨find?_name_or_starts sessions n, ?_, ?_, ?_⟩
  · intro t
    have hre : resolveTargetSession sessions none (some n) =
        sessions.find? (fun s => strStartsWith s.name n) :=
      find?_name_or_starts sessions n
    rw [hre]
    exact find?_eq_some_first _ sessions t
  · have hre : resolveTargetSession sessions none (some n) =
        sessions.find? (fun s => strStartsWith s.name n) :=
      find?_name_or_starts sessions n
    rw [hre, List.find?_eq_none]
    constructor
    · intro h s hs
      have := h s hs
      simpa using this
    · intro h s hs
      rw [h s hs]
      simp
  · intro p st e hid hname hl hr
    cases ht : resolveTargetSession sessions none (some n) with
    | none =>
      have hst : waitStep p st (.stopEvt sessions e) = st := by
        simp [waitStep, hl, hid, hname, ht]
      simp [hst, hr, ht]
    | some t =>
      by_cases hm : eventMatchesTarget t e = true
      · have hres : (waitStep p st (.stopEvt sessions e)).result =
            some (.stopResolved e) := by
          simp [waitStep, hl, hid, hname, ht, hm, hr, settle]
        rw [hres]
        simp only [Option.isSome_some, true_iff]
        refine ⟨t, rfl, ?_⟩
        simpa [eventMatchesTarget, Bool.or_eq_true, beq_iff_eq, or_assoc]
          using hm
      · have hst : waitStep p st (.stopEvt sessions e) = st := by
          simp [waitStep, hl, hid, hname, ht, hm]
        rw [hst, hr]
        simp only [Option.isSome_none, Bool.false_eq_true, false_iff]
        rintro ⟨t', ht', hd⟩
        injection ht' with htt
        subst htt
        apply hm
        simpa [eventMatchesTarget, Bool.or_eq_true, beq_iff_eq, or_assoc]
          using hd

/-- Witness for C2 (amended): a renamed child session resolves a wait armed
with the parent name, via the event-prefix rule. -/
theorem c2_amended_session_matching_witness :
    ((waitStep { sessionName := some "Run test.ps1" }
        (waitInit { sessionName := some "Run test.ps1" })
        (.stopEvt [{ id := "idB", name := "Run test.ps1 2" }]
          { sessionId := "idB", sessionName := "Run test.ps1 2"
            threadId := 1, reason := "breakpoint" })).result).isSome :=
  ((c2_amended_session_matching [{ id := "idB", name := "Run test.ps1 2" }]
      "Run test.ps1").2.2.2 _ _ _ rfl rfl rfl rfl).mpr
    ⟨{ id := "idB", name := "Run test.ps1 2" }, by decide, by decide⟩

/-- Counterexample for C3 as stated: selector name `Run test.ps1 2` resolves
a target of that name; a termination of a different session named
`Run test.ps1` matches the claimed stop-event rule against that target
(mutual name-prefix), yet the wait does not resolve, because the code matches
terminations against the raw selector with a one-directional prefix test. -/
theorem c3_counterexample :
    resolveTargetSession [{ id := "idB", name := "Run test.ps1 2" }] none
        (some "Run test.ps1 2") = some { id := "idB", name := "Run test.ps1 2" }
    ∧ specTermMatches { id := "idB", name := "Run test.ps1 2" }
        { sessionId := "idA", sessionName := "Run test.ps1" } = true
    ∧ (runWait { sessionName := some "Run test.ps1 2" }
        [WaitInput.termEvt
          { sessionId := "idA", sessionName := "Run test.ps1" }]).result =
        none := by
  decide

/-- C3 (amended): a termination event is matched against the raw selector,
not against the resolved target: an id selector demands exact session-id
equality, a name selector demands exact name or the event name extending the
candidate, no selector matches every termination; on a match the wait
resolves with the terminated session's identifiers, thread id 0 and reason
`terminated`. -/
theorem c3_amended_termination_rule (p : WaitParams) (st : WaitState)
    (e : TerminatedEvent) (hA : st.terminateListenerActive = true)
    (hR : st.result = none) :
    ((waitStep p st (.termEvt e)).result =
        some (.termResolved (terminationHitInfo e)) ↔
      terminationMatches p.sessionId p.sessionName e = true)
    ∧ terminationHitInfo e =
        { sessionId := e.sessionId, sessionName := e.sessionName
          threadId := 0, reason := "terminated", frameId := none }
    ∧ (∀ i, p.sessionId = some i →
        (terminationMatches p.sessionId p.sessionName e = true ↔
          e.sessionId = i))
    ∧ (∀ n, p.sessionId = none → p.sessionName = some n →
        (terminationMatches p.sessionId p.sessionName e = true ↔
          (e.sessionName = n ∨ strStartsWith e.sessionName n = true)))
    ∧ (p.sessionId = none → p.sessionName = none →
        terminationMatches p.sessionId p.sessionName e = true) := by
  refine ⟨?_, rfl, ?_, ?_, ?_⟩
  · by_cases hm : terminationMatches p.sessionId p.sessionName e = true
    · simp [waitStep, hA, hm, hR, settle]
    · simp [waitStep, hA, hm, hR]
  · intro i hi
    simp [terminationMatches, hi, beq_iff_eq]
  · intro n hi hn
    simp [terminationMatches, hi, hn, Bool.or_eq_true, beq_iff_eq]
  · intro hi hn
    simp [terminationMatches, hi, hn]

/-- Witness for C3 (amended): a concrete matching termination resolves the
wait with the synthesized terminated outcome. -/
theorem c3_amended_termination_rule_witness :
    (waitStep { sessionName := some "Run test.ps1" }
        (waitInit { sessionName := some "Run test.ps1" })
        (.termEvt { sessionId := "idA", sessionName := "Run test.ps1 2" })).result =
      some (.termResolved (terminationHitInfo
        { sessionId := "idA", sessionName := "Run test.ps1 2" })) :=
  (c3_amended_termination_rule { sessionName := some "Run test.ps1" }
      (waitInit { sessionName := some "Run test.ps1" })
      { sessionId := "idA", sessionName := "Run test.ps1 2" }
      rfl rfl).1.mpr (by decide)

/-- Counterexample for C4 as stated: a wait resolved by a stop event has both
subscriptions disposed but still holds an armed deadline timer — the source
never calls `clearTimeout`. -/
theorem c4_counterexample :
    (((runWait { sessionName := some "Run test.ps1" }
        [WaitInput.stopEvt [{ id := "id1", name := "Run test.ps1" }]
          { sessionId := "id1", sessionName := "Run test.ps1"
            threadId := 1, reason := "breakpoint" }]).result).isSome)
    ∧ (runWait { sessionName := some "Run test.ps1" }
        [WaitInput.stopEvt [{ id := "id1", name := "Run test.ps1" }]
          { sessionId := "id1", sessionName := "Run test.ps1"
            threadId := 1, reason := "breakpoint" }]).timerArmed = true := by
  decide

/-- C4 (amended): when one branch of the race fires, both event
subscriptions are cancelled, so a resolved wait consumes no further
event-bus capacity; the deadline timer, however, is not cleared — it stays
armed until it fires, and its later firing leaves the settled outcome
unchanged. -/
theorem c4_amended_resolution_cleanup (p : WaitParams) :
    (∀ tr, ((runWait p tr).result).isSome →
      (runWait p tr).listenerActive = false ∧
        (runWait p tr).terminateListenerActive = false)
    ∧ (∀ tr, WaitInput.timerFire ∉ tr → (runWait p tr).timerArmed = true)
    ∧ (∀ tr v, (runWait p tr).result = some v →
      (runWait p (tr ++ [WaitInput.timerFire])).result = some v) := by
  refine ⟨runWait_cleanup p, ?_, ?_⟩
  · intro tr h
    have := foldl_timerArmed p tr (waitInit p) h
    simpa [runWait, waitInit] using this
  · intro tr v h
    have heq : runWait p (tr ++ [WaitInput.timerFire]) =
        waitStep p (runWait p tr) .timerFire := by
      rw [runWait, List.foldl_append]; rfl
    rw [heq]
    exact waitStep_preserves_some p _ _ v h

/-- Witness for C4 (amended): the concrete resolved wait of the
counterexample keeps its outcome when the timer later fires. -/
theorem c4_amended_resolution_cleanup_witness :
    (runWait { sessionName := some "Run test.ps1" }
      ([WaitInput.stopEvt [{ id := "id1", name := "Run test.ps1" }]
          { sessionId := "id1", sessionName := "Run test.ps1"
            threadId := 1, reason := "breakpoint" }]
        ++ [WaitInput.timerFire])).result =
      some (.stopResolved
        { sessionId := "id1", sessionName := "Run test.ps1"
          threadId := 1, reason := "breakpoint" }) :=
  (c4_amended_resolution_cleanup { sessionName := some "Run test.ps1" }).2.2
    _ _ (by decide)

/-! ## Helper lemmas about the snapshot assembler -/

theorem gSFV_noSession (c : String → Except String (String → Bool))
    (sessions : List SessionBackend) (p : InspectParams)
    (h : sessions.find? (fun s => s.id == p.sessionId) = none) :
    getStackFrameVariables c sessions p =
      .errorText ("No debug session found with ID " ++ p.sessionId ++ ".") := by
  rw [getStackFrameVariables.eq_def, h]

theorem gSFV_scopes_threw (c : String → Except String (String → Bool))
    (sessions : List SessionBackend) (p : InspectParams)
    (sess : SessionBackend) (msg : String)
    (hfind : sessions.find? (fun s => s.id == p.sessionId) = some sess)
    (hsc : sess.scopesFor p.frameId = .threw msg) :
    getStackFrameVariables c sessions p =
      .errorText ("Error getting variables: " ++ msg
        ++ ". This may be a limitation of the " ++ sess.debugType
        ++ " debug adapter.") := by
  rw [getStackFrameVariables.eq_def, hfind]
  dsimp only
  rw [hsc]

theorem gSFV_scopes_invalid (c : String → Except String (String → Bool))
    (sessions : List SessionBackend) (p : InspectParams)
    (sess : SessionBackend)
    (hfind : sessions.find? (fun s => s.id == p.sessionId) = some sess)
    (hsc : sess.scopesFor p.frameId = .invalid) :
    getStackFrameVariables c sessions p =
      .errorText ("Invalid scopes response from debug adapter. This may be a limitation of the "
        ++ sess.debugType ++ " debug adapter.") := by
  rw [getStackFrameVariables.eq_def, hfind]
  dsimp only
  rw [hsc]

theorem gSFV_ok (c : String → Except String (String → Bool))
    (sessions : List SessionBackend) (p : InspectParams)
    (sess : SessionBackend) (scopes : List DapScope)
    (hfind : sessions.find? (fun s => s.id == p.sessionId) = some sess)
    (hsc : sess.scopesFor p.frameId = .ok scopes) :
    getStackFrameVariables c sessions p =
      if p.retryIfEmpty && truthy p.filter &&
          (totalVarCount (scopes.map (processScope c sess p.filter)) == 0) then
        getStackFrameVariables c sessions
          { sessionId := p.sessionId, frameId := p.frameId
            threadId := p.threadId, filter := none, retryIfEmpty := false }
      else
        .json { sessionId := p.sessionId, frameId := p.frameId
                threadId := p.threadId
                variablesByScope := scopes.map (processScope c sess p.filter)
                filter := if truthy p.filter then p.filter else none
                debuggerType := sess.debugType } := by
  rw [getStackFrameVariables.eq_def, hfind]
  dsimp only
  rw [hsc]

theorem assemblyPasses_eq_one_of_no_filter
    (c : String → Except String (String → Bool))
    (sessions : List SessionBackend) (p : InspectParams)
    (hf : p.filter = none) : assemblyPasses c sessions p = 1 := by
  rw [assemblyPasses.eq_def]
  cases hfind : sessions.find? (fun s => s.id == p.sessionId) with
  | none => rfl
  | some sess =>
    dsimp only
    cases hsc : sess.scopesFor p.frameId with
    | ok scopes => simp [hf, truthy]
    | invalid => rfl
    | threw m => rfl

theorem assemblyPasses_le_two (c : String → Except String (String → Bool))
    (sessions : List SessionBackend) (q : InspectParams) :
    assemblyPasses c sessions q ≤ 2 := by
  rw [assemblyPasses.eq_def]
  cases hfind : sessions.find? (fun s => s.id == q.sessionId) with
  | none => dsimp only; omega
  | some sess =>
    dsimp only
    cases hsc : sess.scopesFor q.frameId with
    | ok scopes =>
      dsimp only
      split
      · rw [assemblyPasses_eq_one_of_no_filter c sessions _ rfl]
      · omega
    | invalid => dsimp only; omega
    | threw m => dsimp only; omega

theorem processScope_scopeName (c : String → Except String (String → Bool))
    (sess : SessionBackend) (φ : Option String) (sc : DapScope) :
    (processScope c sess φ sc).scopeName = sc.name := by
  rw [processScope]
  (repeat' split) <;> rfl

theorem processScope_ref0 (c : String → Except String (String → Bool))
    (sess : SessionBackend) (φ : Option String) (sc : DapScope)
    (h : sc.variablesReference = 0) :
    processScope c sess φ sc =
      { scopeName := sc.name, vars := [], error := none } := by
  rw [processScope]
  simp [h]

theorem processScope_threw (c : String → Except String (String → Bool))
    (sess : SessionBackend) (φ : Option String) (sc : DapScope) (msg : String)
    (h0 : (sc.variablesReference == 0) = false)
    (h : sess.variablesFor sc.variablesReference = .threw msg) :
    processScope c sess φ sc =
      { scopeName := sc.name, vars := []
        error := some ("Error getting variables: " ++ msg) } := by
  rw [processScope]
  simp [h0, h]

theorem processScope_invalid (c : String → Except String (String → Bool))
    (sess : SessionBackend) (φ : Option String) (sc : DapScope)
    (h0 : (sc.variablesReference == 0) = false)
    (h : sess.variablesFor sc.variablesReference = .invalid) :
    processScope c sess φ sc =
      { scopeName := sc.name, vars := []
        error := some ("Invalid variables response from debug adapter for scope "
          ++ sc.name) } := by
  rw [processScope]
  simp [h0, h]

theorem processScope_ok_nofilter (c : String → Except String (String → Bool))
    (sess : SessionBackend) (φ : Option String) (sc : DapScope)
    (vars : List DapVariable)
    (hφ : truthy φ = false)
    (h0 : (sc.variablesReference == 0) = false)
    (h : sess.variablesFor sc.variablesReference = .ok vars) :
    processScope c sess φ sc =
      { scopeName := sc.name, vars := vars, error := none } := by
  rw [processScope]
  cases φ with
  | none => simp [h0, h]
  | some f =>
    have hf : (f == "") = true := by
      simpa [truthy] using hφ
    simp [h0, h, hf]

theorem processScope_ok_filter (c : String → Except String (String → Bool))
    (sess : SessionBackend) (f : String) (sc : DapScope)
    (vars : List DapVariable) (tst : String → Bool)
    (hne : (f == "") = false)
    (hc : c f = .ok tst)
    (h0 : (sc.variablesReference == 0) = false)
    (h : sess.variablesFor sc.variablesReference = .ok vars) :
    processScope c sess (some f) sc =
      { scopeName := sc.name, vars := vars.filter (fun v => tst v.name)
        error := none } := by
  rw [processScope]
  simp [h0, h, hne, hc]

theorem processScope_compile_error (c : String → Except String (String → Bool))
    (sess : SessionBackend) (f : String) (sc : DapScope)
    (vars : List DapVariable) (msg : String)
    (hne : (f == "") = false)
    (hc : c f = .error msg)
    (h0 : (sc.variablesReference == 0) = false)
    (h : sess.variablesFor sc.variablesReference = .ok vars) :
    processScope c sess (some f) sc =
      { scopeName := sc.name, vars := []
        error := some ("Error getting variables: " ++ msg) } := by
  rw [processScope]
  simp [h0, h, hne, hc]

/-- Under a compile-failing filter every scope contributes no variables. -/
theorem processScope_vars_nil_of_compile_error
    (c : String → Except String (String → Bool))
    (sess : SessionBackend) (f : String) (sc : DapScope) (msg : String)
    (hne : (f == "") = false)
    (hc : c f = .error msg) :
    (processScope c sess (some f) sc).vars = [] := by
  rw [processScope]
  (repeat' split) <;> simp_all

/-- Every surviving variable list is a sublist of the backend's response. -/
theorem processScope_sublist (c : String → Except String (String → Bool))
    (sess : SessionBackend) (φ : Option String) (sc : DapScope)
    (vars : List DapVariable)
    (h : sess.variablesFor sc.variablesReference = .ok vars) :
    (processScope c sess φ sc).vars.Sublist vars := by
  rw [processScope]
  (repeat' split) <;> simp_all

/-- A filtered scope never carries more variables than the unfiltered one. -/
theorem processScope_length_le (c : String → Except String (String → Bool))
    (sess : SessionBackend) (f : String) (sc : DapScope) :
    (processScope c sess (some f) sc).vars.length ≤
      (processScope c sess none sc).vars.length := by
  rw [processScope, processScope]
  (repeat' split) <;> simp_all
  exact List.length_filter_le _ _

theorem foldl_add_len (l : List ScopeVariables) (n : Nat) :
    l.foldl (fun sum s => sum + s.vars.length) n =
      n + (l.map fun s => s.vars.length).sum := by
  induction l generalizing n with
  | nil => simp
  | cons a t ih => simp [ih, Nat.add_assoc]

theorem totalVarCount_eq_sum (l : List ScopeVariables) :
    totalVarCount l = (l.map fun s => s.vars.length).sum := by
  simp [totalVarCount, foldl_add_len]

theorem totalVarCount_le_of_pointwise (l : List DapScope)
    (g1 g2 : DapScope → ScopeVariables)
    (h : ∀ sc ∈ l, (g1 sc).vars.length ≤ (g2 sc).vars.length) :
    totalVarCount (l.map g1) ≤ totalVarCount (l.map g2) := by
  rw [totalVarCount_eq_sum, totalVarCount_eq_sum, List.map_map, List.map_map]
  exact List.sum_le_sum h

theorem totalVarCount_eq_zero_of_nil (l : List DapScope)
    (g : DapScope → ScopeVariables)
    (h : ∀ sc ∈ l, (g sc).vars = []) :
    totalVarCount (l.map g) = 0 := by
  rw [totalVarCount_eq_sum, List.map_map]
  apply List.sum_eq_zero
  intro x hx
  rcases List.mem_map.mp hx with ⟨sc, hsc, rfl⟩
  simp [h sc hsc]

theorem lowerChar_idem (c : Char) : lowerChar (lowerChar c) = lowerChar c := by
  by_cases h : 65 ≤ c.toNat ∧ c.toNat ≤ 90
  · have hc : lowerChar c = Char.ofNat (c.toNat + 32) := by
      rw [lowerChar, if_pos h]
    rw [hc]
    obtain ⟨h1, h2⟩ := h
    generalize hg : c.toNat = t at h1 h2 ⊢
    interval_cases t <;> decide
  · have hc : lowerChar c = c := by
      rw [lowerChar, if_neg h]
    rw [hc, hc]

theorem map_lowerChar_idem (l : List Char) :
    (l.map lowerChar).map lowerChar = l.map lowerChar := by
  rw [List.map_map]
  exact List.map_congr_left fun a _ => lowerChar_idem a

/-- The modelled case-insensitive regex test is insensitive to the case of
the name it is applied to. -/
theorem regexTestCI_lower (pat s : String) :
    regexTestCI pat (strLower s) = regexTestCI pat s := by
  have hl : (strLower s).toList = s.toList.map lowerChar := rfl
  rw [regexTestCI, regexTestCI]
  simp only [hl, map_lowerChar_idem]

/-- Shape of every successful assembly: the result is the JSON snapshot
built from the backend's scopes by independent per-scope processing, with
the effective filter either the caller's or (after the retry) none. -/
theorem gSFV_shape (c : String → Except String (String → Bool))
    (sessions : List SessionBackend) (p : InspectParams)
    (sess : SessionBackend) (scopes : List DapScope)
    (hfind : sessions.find? (fun s => s.id == p.sessionId) = some sess)
    (hsc : sess.scopesFor p.frameId = .ok scopes) :
    ∃ φ, (φ = p.filter ∨ φ = none) ∧
      getStackFrameVariables c sessions p =
        .json { sessionId := p.sessionId, frameId := p.frameId
                threadId := p.threadId
                variablesByScope := scopes.map (processScope c sess φ)
                filter := if truthy φ then φ else none
                debuggerType := sess.debugType } := by
  rw [gSFV_ok c sessions p sess scopes hfind hsc]
  by_cases hg : (p.retryIfEmpty && truthy p.filter &&
      (totalVarCount (scopes.map (processScope c sess p.filter)) == 0)) = true
  · rw [if_pos hg]
    refine ⟨none, Or.inr rfl, ?_⟩
    rw [gSFV_ok c sessions
      { sessionId := p.sessionId, frameId := p.frameId
        threadId := p.threadId, filter := none, retryIfEmpty := false }
      sess scopes hfind hsc]
    simp [truthy]
  · rw [if_neg hg]
    exact ⟨p.filter, Or.inl rfl, rfl⟩

/-! ## Claims C5-C8, C10: the snapshot assembler -/

/-- C5: a filtered assembly with `retryIfEmpty` whose total surviving count
is zero returns exactly the result of the same assembly with the filter
removed, performs exactly one retry, and no call ever performs more than
two passes, even when the unfiltered result is also empty. -/
theorem c5_retry_fallback (c : String → Except String (String → Bool))
    (sessions : List SessionBackend) (p : InspectParams)
    (sess : SessionBackend) (scopes : List DapScope)
    (hfind : sessions.find? (fun s => s.id == p.sessionId) = some sess)
    (hsc : sess.scopesFor p.frameId = .ok scopes)
    (hfilter : truthy p.filter = true)
    (hretry : p.retryIfEmpty = true)
    (hzero : totalVarCount (scopes.map (processScope c sess p.filter)) = 0) :
    getStackFrameVariables c sessions p =
      getStackFrameVariables c sessions { p with filter := none }
    ∧ assemblyPasses c sessions p = 2
    ∧ (∀ q : InspectParams, assemblyPasses c sessions q ≤ 2) := by
  have hg : (p.retryIfEmpty && truthy p.filter &&
      (totalVarCount (scopes.map (processScope c sess p.filter)) == 0)) = true := by
    rw [hretry, hfilter, hzero]
    rfl
  refine ⟨?_, ?_, assemblyPasses_le_two c sessions⟩
  · rw [gSFV_ok c sessions p sess scopes hfind hsc, if_pos hg]
    rw [gSFV_ok c sessions { p with filter := none } sess scopes hfind hsc]
    rw [gSFV_ok c sessions
      { sessionId := p.sessionId, frameId := p.frameId
        threadId := p.threadId, filter := none, retryIfEmpty := false }
      sess scopes hfind hsc]
    simp [truthy]
  · rw [assemblyPasses.eq_def, hfind]
    dsimp only
    rw [hsc]
    dsimp only
    rw [if_pos hg]
    rw [assemblyPasses_eq_one_of_no_filter c sessions _ rfl]

/-- Witness for C5 at the repository's mock backend with the
nothing-matching filter `delta`. -/
theorem c5_retry_fallback_witness :
    getStackFrameVariables mockCompile [mockSession]
      { sessionId := "mock-session", frameId := 10, threadId := 1
        filter := some "delta", retryIfEmpty := true } =
      getStackFrameVariables mockCompile [mockSession]
        { sessionId := "mock-session", frameId := 10, threadId := 1
          filter := none, retryIfEmpty := true }
    ∧ assemblyPasses mockCompile [mockSession]
      { sessionId := "mock-session", frameId := 10, threadId := 1
        filter := some "delta", retryIfEmpty := true } = 2 :=
  ⟨(c5_retry_fallback mockCompile [mockSession]
      { sessionId := "mock-session", frameId := 10, threadId := 1
        filter := some "delta", retryIfEmpty := true } mockSession
      [{ name := "Local", variablesReference := 1 },
       { name := "Empty", variablesReference := 0 }]
      rfl rfl rfl rfl (by decide)).1,
   (c5_retry_fallback mockCompile [mockSession]
      { sessionId := "mock-session", frameId := 10, threadId := 1
        filter := some "delta", retryIfEmpty := true } mockSession
      [{ name := "Local", variablesReference := 1 },
       { name := "Empty", variablesReference := 0 }]
      rfl rfl rfl rfl (by decide)).2.1⟩

/-- C6: for the same backend responses, the unfiltered total variable count
is at least the count under any filter; the filter acts on each scope
independently as a pure name filter over that scope's own response; and the
modelled case-insensitive test is invariant under lower-casing the name. -/
theorem c6_filter_monotone (c : String → Except String (String → Bool))
    (sessions : List SessionBackend) (p : InspectParams) (f : String) :
    resultTotalVars (getStackFrameVariables c sessions { p with filter := some f }) ≤
      resultTotalVars (getStackFrameVariables c sessions { p with filter := none })
    ∧ (∀ (sess : SessionBackend) (sc : DapScope) (tst : String → Bool)
        (vars : List DapVariable),
        c f = .ok tst → (f == "") = false → (sc.variablesReference == 0) = false →
        sess.variablesFor sc.variablesReference = .ok vars →
        (processScope c sess (some f) sc).vars =
          vars.filter (fun v => tst v.name))
    ∧ (∀ pat s, regexTestCI pat (strLower s) = regexTestCI pat s) := by
  refine ⟨?_, ?_, fun pat s => regexTestCI_lower pat s⟩
  · cases hfind : sessions.find? (fun s => s.id == p.sessionId) with
    | none =>
      rw [gSFV_noSession c sessions { p with filter := some f } hfind,
        gSFV_noSession c sessions { p with filter := none } hfind]
    | some sess =>
      cases hsc : sess.scopesFor p.frameId with
      | threw m =>
        rw [gSFV_scopes_threw c sessions { p with filter := some f } sess m hfind hsc,
          gSFV_scopes_threw c sessions { p with filter := none } sess m hfind hsc]
      | invalid =>
        rw [gSFV_scopes_invalid c sessions { p with filter := some f } sess hfind hsc,
          gSFV_scopes_invalid c sessions { p with filter := none } sess hfind hsc]
      | ok scopes =>
        have hnone : getStackFrameVariables c sessions { p with filter := none } =
            .json { sessionId := p.sessionId, frameId := p.frameId
                    threadId := p.threadId
                    variablesByScope := scopes.map (processScope c sess none)
                    filter := none
                    debuggerType := sess.debugType } := by
          rw [gSFV_ok c sessions { p with filter := none } sess scopes hfind hsc]
          simp [truthy]
        rw [hnone]
        rw [gSFV_ok c sessions { p with filter := some f } sess scopes hfind hsc]
        by_cases hg : (({ p with filter := some f } : InspectParams).retryIfEmpty &&
            truthy (some f) &&
            (totalVarCount (scopes.map (processScope c sess (some f))) == 0)) = true
        · rw [if_pos hg]
          rw [gSFV_ok c sessions
            { sessionId := p.sessionId, frameId := p.frameId
              threadId := p.threadId, filter := none, retryIfEmpty := false }
            sess scopes hfind hsc]
          simp [truthy, resultTotalVars]
        · rw [if_neg hg]
          simp only [resultTotalVars]
          exact totalVarCount_le_of_pointwise scopes _ _
            fun sc _ => processScope_length_le c sess f sc
  · intro sess sc tst vars hc hne h0 h
    rw [processScope_ok_filter c sess f sc vars tst hne hc h0 h]

/-- Witness for C6 at the repository's mock backend with filter
`alpha|gamma`. -/
theorem c6_filter_monotone_witness :
    resultTotalVars (getStackFrameVariables mockCompile [mockSession]
      { sessionId := "mock-session", frameId := 10, threadId := 1
        filter := some "alpha|gamma", retryIfEmpty := false }) ≤
      resultTotalVars (getStackFrameVariables mockCompile [mockSession]
        { sessionId := "mock-session", frameId := 10, threadId := 1
          filter := none, retryIfEmpty := false })
    ∧ (processScope mockCompile mockSession (some "alpha|gamma")
        { name := "Local", variablesReference := 1 }).vars =
      ([{ name := "alpha", value := "1" },
        { name := "beta", value := "2" },
        { name := "gamma", value := "3" }] : List DapVariable).filter
        (fun v => regexTestCI "alpha|gamma" v.name)
    ∧ regexTestCI "alpha" (strLower "ALPHA") = regexTestCI "alpha" "ALPHA" :=
  ⟨(c6_filter_monotone mockCompile [mockSession]
      { sessionId := "mock-session", frameId := 10, threadId := 1
        filter := none, retryIfEmpty := false } "alpha|gamma").1,
   (c6_filter_monotone mockCompile [mockSession]
      { sessionId := "mock-session", frameId := 10, threadId := 1
        filter := none, retryIfEmpty := false } "alpha|gamma").2.1
      mockSession { name := "Local", variablesReference := 1 }
      (regexTestCI "alpha|gamma") _ rfl rfl rfl rfl,
   (c6_filter_monotone mockCompile [mockSession]
      { sessionId := "mock-session", frameId := 10, threadId := 1
        filter := none, retryIfEmpty := false } "alpha|gamma").2.2
      "alpha" "ALPHA"⟩

/-- C7: when the session resolves and the scopes response is well-formed,
the assembly never fails as a whole: the result is a JSON snapshot built by
independent per-scope processing; a scope whose variables query throws or
returns an invalid response contributes an empty list plus an error string;
and a scope with variables reference 0 yields no variables for every
backend, i.e. without consulting the backend at all. -/
theorem c7_partial_success (c : String → Except String (String → Bool))
    (sessions : List SessionBackend) (p : InspectParams)
    (sess : SessionBackend) (scopes : List DapScope)
    (hfind : sessions.find? (fun s => s.id == p.sessionId) = some sess)
    (hsc : sess.scopesFor p.frameId = .ok scopes) :
    (getStackFrameVariables c sessions p).isError = false
    ∧ (∃ φ, (φ = p.filter ∨ φ = none) ∧
        getStackFrameVariables c sessions p =
          .json { sessionId := p.sessionId, frameId := p.frameId
                  threadId := p.threadId
                  variablesByScope := scopes.map (processScope c sess φ)
                  filter := if truthy φ then φ else none
                  debuggerType := sess.debugType })
    ∧ (∀ sc : DapScope, (sc.variablesReference == 0) = false →
        (∀ msg, sess.variablesFor sc.variablesReference = .threw msg →
          processScope c sess p.filter sc =
            { scopeName := sc.name, vars := []
              error := some ("Error getting variables: " ++ msg) })
        ∧ (sess.variablesFor sc.variablesReference = .invalid →
          processScope c sess p.filter sc =
            { scopeName := sc.name, vars := []
              error := some ("Invalid variables response from debug adapter for scope "
                ++ sc.name) }))
    ∧ (∀ (s2 : SessionBackend) (φ : Option String) (sc : DapScope),
        sc.variablesReference = 0 →
        processScope c s2 φ sc =
          { scopeName := sc.name, vars := [], error := none }) := by
  have hshape := gSFV_shape c sessions p sess scopes hfind hsc
  refine ⟨?_, hshape, ?_, ?_⟩
  · obtain ⟨φ, _, heq⟩ := hshape
    rw [heq]
    rfl
  · intro sc h0
    exact ⟨fun msg hm => processScope_threw c sess p.filter sc msg h0 hm,
           fun hi => processScope_invalid c sess p.filter sc h0 hi⟩
  · intro s2 φ sc h0
    exact processScope_ref0 c s2 φ sc h0

/-- Witness for C7 at a backend with a throwing scope, an invalid scope and
a reference-0 scope next to a healthy one. -/
theorem c7_partial_success_witness :
    (getStackFrameVariables mockCompile [mockFailSession]
      { sessionId := "fail-session", frameId := 5, threadId := 1
        filter := none, retryIfEmpty := false }).isError = false
    ∧ processScope mockCompile mockFailSession none
        { name := "Broken", variablesReference := 2 } =
      { scopeName := "Broken", vars := []
        error := some ("Error getting variables: " ++ "boom") }
    ∧ processScope mockCompile mockFailSession none
        { name := "Bad", variablesReference := 3 } =
      { scopeName := "Bad", vars := []
        error := some ("Invalid variables response from debug adapter for scope "
          ++ "Bad") }
    ∧ processScope mockCompile mockFailSession none
        { name := "Empty", variablesReference := 0 } =
      { scopeName := "Empty", vars := [], error := none } :=
  ⟨(c7_partial_success mockCompile [mockFailSession]
      { sessionId := "fail-session", frameId := 5, threadId := 1
        filter := none, retryIfEmpty := false } mockFailSession
      [{ name := "Local", variablesReference := 1 },
       { name := "Broken", variablesReference := 2 },
       { name := "Bad", variablesReference := 3 },
       { name := "Empty", variablesReference := 0 }] rfl rfl).1,
   ((c7_partial_success mockCompile [mockFailSession]
      { sessionId := "fail-session", frameId := 5, threadId := 1
        filter := none, retryIfEmpty := false } mockFailSession
      [{ name := "Local", variablesReference := 1 },
       { name := "Broken", variablesReference := 2 },
       { name := "Bad", variablesReference := 3 },
       { name := "Empty", variablesReference := 0 }] rfl rfl).2.2.1
      { name := "Broken", variablesReference := 2 } rfl).1 "boom" rfl,
   ((c7_partial_success mockCompile [mockFailSession]
      { sessionId := "fail-session", frameId := 5, threadId := 1
        filter := none, retryIfEmpty := false } mockFailSession
      [{ name := "Local", variablesReference := 1 },
       { name := "Broken", variablesReference := 2 },
       { name := "Bad", variablesReference := 3 },
       { name := "Empty", variablesReference := 0 }] rfl rfl).2.2.1
      { name := "Bad", variablesReference := 3 } rfl).2 rfl,
   (c7_partial_success mockCompile [mockFailSession]
      { sessionId := "fail-session", frameId := 5, threadId := 1
        filter := none, retryIfEmpty := false } mockFailSession
      [{ name := "Local", variablesReference := 1 },
       { name := "Broken", variablesReference := 2 },
       { name := "Bad", variablesReference := 3 },
       { name := "Empty", variablesReference := 0 }] rfl rfl).2.2.2
      mockFailSession none { name := "Empty", variablesReference := 0 } rfl⟩

/-- C8: a returned snapshot lists scopes in exactly the backend's order
(the scope-name sequence equals the scopes response's name sequence), and
each scope's variable list is a sublist of the backend's variables response
— order preserved, entries only removed — with equality whenever no truthy
filter was supplied. -/
theorem c8_order_preservation (c : String → Except String (String → Bool))
    (sessions : List SessionBackend) (p : InspectParams)
    (sess : SessionBackend) (scopes : List DapScope)
    (r : StackFrameVariablesResult)
    (hfind : sessions.find? (fun s => s.id == p.sessionId) = some sess)
    (hsc : sess.scopesFor p.frameId = .ok scopes)
    (hres : getStackFrameVariables c sessions p = .json r) :
    r.variablesByScope.map (fun s => s.scopeName) =
      scopes.map (fun sc => sc.name)
    ∧ (∀ i sc, scopes.get? i = some sc →
        ∃ entry, r.variablesByScope.get? i = some entry ∧
          (∀ vars, sess.variablesFor sc.variablesReference = .ok vars →
            entry.vars.Sublist vars ∧
            (truthy p.filter = false → (sc.variablesReference == 0) = false →
              entry.vars = vars))) := by
  obtain ⟨φ, hφ, heq⟩ := gSFV_shape c sessions p sess scopes hfind hsc
  rw [heq] at hres
  injection hres with h
  subst h
  dsimp only
  constructor
  · rw [List.map_map]
    exact List.map_congr_left fun sc _ => processScope_scopeName c sess φ sc
  · intro i sc hget
    refine ⟨processScope c sess φ sc, ?_, ?_⟩
    · rw [List.get?_map, hget]
      rfl
    · intro vars hv
      refine ⟨processScope_sublist c sess φ sc vars hv, ?_⟩
      intro htr h0
      have hφt : truthy φ = false := by
        rcases hφ with h | h
        · rw [h]; exact htr
        · rw [h]; rfl
      rw [processScope_ok_nofilter c sess φ sc vars hφt h0 hv]

/-- Witness for C8 at the repository's mock backend, unfiltered. -/
theorem c8_order_preservation_witness :
    ([{ scopeName := "Local"
        vars := [{ name := "alpha", value := "1" },
                 { name := "beta", value := "2" },
                 { name := "gamma", value := "3" }], error := none },
      { scopeName := "Empty", vars := [], error := none }] :
        List ScopeVariables).map (fun s => s.scopeName) =
      ([{ name := "Local", variablesReference := 1 },
        { name := "Empty", variablesReference := 0 }] : List DapScope).map
        (fun sc => sc.name) :=
  (c8_order_preservation mockCompile [mockSession]
    { sessionId := "mock-session", frameId := 10, threadId := 1
      filter := none, retryIfEmpty := false } mockSession
    [{ name := "Local", variablesReference := 1 },
     { name := "Empty", variablesReference := 0 }]
    { sessionId := "mock-session", frameId := 10, threadId := 1
      variablesByScope :=
        [{ scopeName := "Local"
           vars := [{ name := "alpha", value := "1" },
                    { name := "beta", value := "2" },
                    { name := "gamma", value := "3" }], error := none },
         { scopeName := "Empty", vars := [], error := none }]
      filter := none, debuggerType := "mockType" }
    rfl rfl
    (by
      rw [gSFV_ok mockCompile [mockSession]
        { sessionId := "mock-session", frameId := 10, threadId := 1
          filter := none, retryIfEmpty := false } mockSession
        [{ name := "Local", variablesReference := 1 },
         { name := "Empty", variablesReference := 0 }] rfl rfl]
      rfl)).1

/-- C10: a filter whose compilation fails never fails the assembly: every
scope with a nonzero reference and a well-formed variables response records
the compilation failure as its error with an empty list, the overall result
is not an error, and with `retryIfEmpty` set the unfiltered retry result is
returned. -/
theorem c10_invalid_filter (c : String → Except String (String → Bool))
    (sessions : List SessionBackend) (p : InspectParams)
    (sess : SessionBackend) (scopes : List DapScope) (f msg : String)
    (hfind : sessions.find? (fun s => s.id == p.sessionId) = some sess)
    (hsc : sess.scopesFor p.frameId = .ok scopes)
    (hf : p.filter = some f) (hne : (f == "") = false)
    (hcomp : c f = .error msg) :
    (getStackFrameVariables c sessions p).isError = false
    ∧ (∀ sc : DapScope, (sc.variablesReference == 0) = false →
        ∀ vars, sess.variablesFor sc.variablesReference = .ok vars →
        processScope c sess p.filter sc =
          { scopeName := sc.name, vars := []
            error := some ("Error getting variables: " ++ msg) })
    ∧ (p.retryIfEmpty = true →
        getStackFrameVariables c sessions p =
          getStackFrameVariables c sessions
            { sessionId := p.sessionId, frameId := p.frameId
              threadId := p.threadId, filter := none
              retryIfEmpty := false }) := by
  have hnil : ∀ sc ∈ scopes, (processScope c sess p.filter sc).vars = [] := by
    intro sc _
    rw [hf]
    by_cases h0 : (sc.variablesReference == 0) = true
    · rw [processScope_ref0 c sess (some f) sc (by simpa using h0)]
    · cases hv : sess.variablesFor sc.variablesReference with
      | ok vars =>
        rw [processScope_compile_error c sess f sc vars msg hne hcomp
          (by simpa using h0) hv]
      | invalid =>
        rw [processScope_invalid c sess (some f) sc (by simpa using h0) hv]
      | threw m =>
        rw [processScope_threw c sess (some f) sc m (by simpa using h0) hv]
  have hzero : totalVarCount (scopes.map (processScope c sess p.filter)) = 0 :=
    totalVarCount_eq_zero_of_nil scopes _ hnil
  refine ⟨?_, ?_, ?_⟩
  · obtain ⟨φ, _, heq⟩ := gSFV_shape c sessions p sess scopes hfind hsc
    rw [heq]
    rfl
  · intro sc h0 vars hv
    rw [hf]
    exact processScope_compile_error c sess f sc vars msg hne hcomp h0 hv
  · intro hretry
    have hg : (p.retryIfEmpty && truthy p.filter &&
        (totalVarCount (scopes.map (processScope c sess p.filter)) == 0)) = true := by
      rw [hretry, hzero, hf]
      simp [truthy, hne]
    rw [gSFV_ok c sessions p sess scopes hfind hsc, if_pos hg]

/-- Witness for C10 at the mock backend with a rejecting regex engine. -/
theorem c10_invalid_filter_witness :
    (getStackFrameVariables badCompile [mockSession]
      { sessionId := "mock-session", frameId := 10, threadId := 1
        filter := some "(", retryIfEmpty := true }).isError = false
    ∧ processScope badCompile mockSession (some "(")
        { name := "Local", variablesReference := 1 } =
      { scopeName := "Local", vars := []
        error := some ("Error getting variables: " ++ "Invalid regular expression") }
    ∧ getStackFrameVariables badCompile [mockSession]
        { sessionId := "mock-session", frameId := 10, threadId := 1
          filter := some "(", retryIfEmpty := true } =
      getStackFrameVariables badCompile [mockSession]
        { sessionId := "mock-session", frameId := 10, threadId := 1
          filter := none, retryIfEmpty := false } :=
  ⟨(c10_invalid_filter badCompile [mockSession]
      { sessionId := "mock-session", frameId := 10, threadId := 1
        filter := some "(", retryIfEmpty := true } mockSession
      [{ name := "Local", variablesReference := 1 },
       { name := "Empty", variablesReference := 0 }] "("
      "Invalid regular expression" rfl rfl rfl rfl rfl).1,
   (c10_invalid_filter badCompile [mockSession]
      { sessionId := "mock-session", frameId := 10, threadId := 1
        filter := some "(", retryIfEmpty := true } mockSession
      [{ name := "Local", variablesReference := 1 },
       { name := "Empty", variablesReference := 0 }] "("
      "Invalid regular expression" rfl rfl rfl rfl rfl).2.1
      { name := "Local", variablesReference := 1 } rfl
      [{ name := "alpha", value := "1" },
       { name := "beta", value := "2" },
       { name := "gamma", value := "3" }] rfl,
   (c10_invalid_filter badCompile [mockSession]
      { sessionId := "mock-session", frameId := 10, threadId := 1
        filter := some "(", retryIfEmpty := true } mockSession
      [{ name := "Local", variablesReference := 1 },
       { name := "Empty", variablesReference := 0 }] "("
      "Invalid regular expression" rfl rfl rfl rfl rfl).2.2 rfl⟩

/-! ## Claim C9: the resume orchestrator -/

/-- C9: whenever `resumeDebugSession` issues the continue request, the
stop/termination wait was armed immediately before it in the action order —
and that wait starts with both the stop and the termination subscription
live; if `waitForStop` is false the outcome of the armed wait is never
awaited, and with the continue acknowledged the call returns the immediate
resumed result right after the continue action. -/
theorem c9_resume_arms_before_continue (env : ResumeEnv) (p : ResumeParams) :
    (ResumeAction.continueReq ∈ (resumeDebugSession env p).1 →
      ∃ rest, (resumeDebugSession env p).1 =
        ResumeAction.armWait
          { sessionId := some p.sessionId, sessionName := none
            timeout := 30000, includeTermination := true } ::
          ResumeAction.continueReq :: rest)
    ∧ (waitInit
        { sessionId := some p.sessionId, sessionName := none
          timeout := 30000, includeTermination := true }).listenerActive = true
    ∧ (waitInit
        { sessionId := some p.sessionId, sessionName := none
          timeout := 30000, includeTermination := true }).terminateListenerActive
          = true
    ∧ (p.waitForStop = false →
        ResumeAction.awaitOutcome ∉ (resumeDebugSession env p).1)
    ∧ (∀ sess,
        (match env.sessions.find? (fun s => s.id == p.sessionId) with
         | some s => some s
         | none =>
            env.sessions.find? fun s => strContains s.name p.sessionId) =
          some sess →
        (p.hasBreakpointConfig && !env.configOk) = false →
        env.continueOk = true → p.waitForStop = false →
        resumeDebugSession env p =
          ([ResumeAction.armWait
              { sessionId := some p.sessionId, sessionName := none
                timeout := 30000, includeTermination := true },
            ResumeAction.continueReq],
            .resumedImmediate sess.name)) := by
  refine ⟨?_, rfl, rfl, ?_, ?_⟩
  · simp only [resumeDebugSession]
    split
    · intro hmem
      simp at hmem
    · split
      · intro hmem
        simp at hmem
      · split
        · intro _
          exact ⟨[], rfl⟩
        · split
          · intro _
            exact ⟨[ResumeAction.awaitOutcome], rfl⟩
          · intro _
            exact ⟨[], rfl⟩
  · intro hw
    simp only [resumeDebugSession]
    split
    · simp
    · split
      · simp
      · split
        · simp
        · split
          · simp_all
          · simp
  · intro sess hfound hcfg hcont hw
    simp only [resumeDebugSession]
    rw [hfound]
    simp [hcfg, hcont, hw]

/-- Witness for C9: a concrete resume without `waitForStop` arms the wait,
issues continue, never awaits, and returns the immediate result. -/
theorem c9_resume_arms_before_continue_witness :
    resumeDebugSession { sessions := [{ id := "s1", name := "Name1" }] }
        { sessionId := "s1" } =
      ([ResumeAction.armWait
          { sessionId := some "s1", sessionName := none
            timeout := 30000, includeTermination := true },
        ResumeAction.continueReq], .resumedImmediate "Name1")
    ∧ ResumeAction.awaitOutcome ∉
        (resumeDebugSession { sessions := [{ id := "s1", name := "Name1" }] }
          { sessionId := "s1" }).1 :=
  ⟨(c9_resume_arms_before_continue
      { sessions := [{ id := "s1", name := "Name1" }] }
      { sessionId := "s1" }).2.2.2.2
      { id := "s1", name := "Name1" } rfl rfl rfl rfl,
   (c9_resume_arms_before_continue
      { sessions := [{ id := "s1", name := "Name1" }] }
      { sessionId := "s1" }).2.2.2.1 rfl⟩
